import Mathlib

/-!
Shallow embedding of the phishing-detection engine in src/app.py
(SentinelAI). Python strings are modelled as Lean `String`, machine
integers as `Nat`/`Int`, model confidences as `ℚ`, and a Python
exception as `Except.error` carrying the exception message. The external
collaborators (the scikit-learn models and the vectorizer, loaded by
`load_brain`) are modelled as structures of abstract functions so that
theorems quantify over every possible model.
-/

/-- Whitespace characters stripped by Python `str.strip()` and matched by
the regex class `\s` (ASCII range; the Unicode extras are irrelevant to
the strings this program manipulates). -/
def isPySpace (c : Char) : Bool :=
  c == ' ' || c == '\t' || c == '\n' || c == '\r' || c == '\x0b' || c == '\x0c'

/-- Python `str.strip()`: remove whitespace from both ends. -/
def pyStrip (s : String) : String :=
  ⟨((s.data.dropWhile isPySpace).reverse.dropWhile isPySpace).reverse⟩

/-- Python `str.lower()` (ASCII case mapping, which covers every string
this program lowercases). -/
def pyLower (s : String) : String :=
  ⟨s.data.map Char.toLower⟩

/-- Python `url.count(c)` for a single-character needle. -/
def countChar (s : String) (c : Char) : Nat :=
  s.data.count c

/-- Python `sum(c.isdigit() for c in url)` (ASCII digits). -/
def digitCount (s : String) : Nat :=
  (s.data.filter Char.isDigit).length

/-- Python substring test `needle in hay`. -/
def strContains (hay needle : String) : Bool :=
  (List.range (hay.data.length + 1)).any fun i =>
    needle.data.isPrefixOf (hay.data.drop i)

/-- Length of the leading run of decimal digits. -/
def leadDigits (s : List Char) : Nat :=
  (s.takeWhile Char.isDigit).length

/-- Match `\d{1,3}\.` at the head of `s`, returning the remainder. Because
the characters consumed by `\d{1,3}` must be followed by a literal dot,
the group matches here exactly when the leading digit run has length 1 to
3 and is followed by a dot. -/
def digitsThenDot (s : List Char) : Option (List Char) :=
  let r := leadDigits s
  if 1 ≤ r ∧ r ≤ 3 then
    match s.drop r with
    | '.' :: t => some t
    | _ => none
  else none

/-- Match of the pattern `\d{1,3}\.\d{1,3}\.\d{1,3}\.\d{1,3}` anchored at
the head of `s` (the final group needs only one digit to succeed). -/
def quadAt (s : List Char) : Bool :=
  match digitsThenDot s with
  | none => false
  | some t1 =>
    match digitsThenDot t1 with
    | none => false
    | some t2 =>
      match digitsThenDot t2 with
      | none => false
      | some t3 => 1 ≤ leadDigits t3

/-- Search at every start position, as `re.search` does. -/
def hasIPquadAux : List Char → Bool
  | [] => false
  | c :: t => quadAt (c :: t) || hasIPquadAux t

/-- Python `re.search(r'\d{1,3}\.\d{1,3}\.\d{1,3}\.\d{1,3}', url)` is not
None — the dotted-quad IP test used at src/app.py lines 20, 56 and 140. -/
def hasIPquad (url : String) : Bool :=
  hasIPquadAux url.data

/-- Scheme characters accepted by CPython `urllib.parse` (`scheme_chars`). -/
def isSchemeChar (c : Char) : Bool :=
  c.isAlphanum || c == '+' || c == '-' || c == '.'

/-- First URL character must be an ASCII letter for a scheme to split off. -/
def headIsAsciiAlpha : List Char → Bool
  | [] => false
  | c :: _ => c.toNat < 128 && c.isAlpha

/-- CPython `urlsplit` preprocessing: strip C0-control-or-space bytes from
both ends and delete every tab, carriage return and newline. -/
def cleanUrlChars (s : List Char) : List Char :=
  (((s.dropWhile fun c => c.toNat ≤ 0x20).reverse.dropWhile
      fun c => c.toNat ≤ 0x20).reverse).filter
    fun c => !(c == '\t' || c == '\r' || c == '\n')

/-- CPython `urlsplit` scheme recognition: the text before the first colon
is a scheme when it is non-empty, starts with an ASCII letter and consists
of scheme characters; the scheme is lowercased. -/
def splitScheme (cs : List Char) : String × List Char :=
  match cs.findIdx? (fun c => c == ':') with
  | some i =>
    if i != 0 && headIsAsciiAlpha cs && (cs.take i).all isSchemeChar then
      (⟨(cs.take i).map Char.toLower⟩, cs.drop (i + 1))
    else ("", cs)
  | none => ("", cs)

/-- Modelled from CPython `urllib.parse.urlsplit`, restricted to the two
fields this program reads (`scheme`, `netloc`). After scheme splitting,
a netloc is present when the remainder starts with `//` and extends to
the first `/`, `?` or `#`. A netloc containing one square bracket without
its partner raises `ValueError("Invalid IPv6 URL")` in every CPython 3
release, modelled as `Except.error` (the additional bracketed-host
validation of newer releases is not modelled). -/
def pyUrlsplit (url : String) : Except String (String × String) :=
  let cs := cleanUrlChars url.data
  let sr := splitScheme cs
  if sr.2.take 2 = ['/', '/'] then
    let netloc := (sr.2.drop 2).takeWhile fun c => !(c == '/' || c == '?' || c == '#')
    if (netloc.contains '[' && !netloc.contains ']') ||
        (netloc.contains ']' && !netloc.contains '[') then
      Except.error "Invalid IPv6 URL"
    else
      Except.ok (sr.1, ⟨netloc⟩)
  else
    Except.ok (sr.1, "")

/-- Feature row built at src/app.py lines 23-28, given the scheme that
`urlparse` produced: length, dot count, at count, dash count, digit count,
HTTPS flag, dotted-quad-IP flag. -/
def featureList (url : String) (scheme : String) : List Int :=
  [(url.length : Int), (countChar url '.' : Int), (countChar url '@' : Int),
   (countChar url '-' : Int), (digitCount url : Int),
   if scheme = "https" then 1 else 0,
   if hasIPquad url then 1 else 0]

/-- Embeds `extract_features` (src/app.py lines 15-28). It calls
`urlparse(url)` before computing the features, so the `ValueError` that
`urlsplit` raises on a bracket-mismatched netloc propagates out of it. -/
def extract_features (url : String) : Except String (List Int) :=
  match pyUrlsplit url with
  | Except.error e => Except.error e
  | Except.ok sr => Except.ok (featureList url sr.1)

/-- The trusted-domain allowlist (src/app.py line 12). -/
def WHITELIST : List String :=
  ["zoom.us", "google.com", "microsoft.com", "outlook.com", "paypal.com",
   "netflix.com", "drive.google.com"]

/-- The allowlist test at src/app.py line 129:
`any(trusted in domain for trusted in WHITELIST)` — a substring test
against the netloc. -/
def isTrusted (netloc : String) : Bool :=
  WHITELIST.any fun t => strContains netloc t

/-- Embeds `is_valid_email_text` (src/app.py lines 31-43). The gibberish
check on line 37 reads the local variable `words`, which is first assigned
on line 39; any input whose stripped length is at least 20 therefore
raises `UnboundLocalError` in Python, modelled as `Except.error`. The
checks on lines 39-41 are unreachable. -/
def is_valid_email_text (text : String) : Except String (Bool × String) :=
  let t := pyStrip text
  if t.length = 0 then
    Except.ok (false, "Empty input, Paste something to analyze.")
  else if t.length < 20 then
    Except.ok (false, "Input is too short to be a valid email.")
  else
    Except.error "UnboundLocalError: local variable words referenced before assignment"

/-- Embeds `backup_text_scan` (src/app.py lines 46-51). -/
def backup_text_scan (text : String) : Int × String :=
  let keywords := ["urgent", "verify", "suspended", "immediately", "close",
    "bank", "password", "unauthorized", "lock", "action required"]
  let found := keywords.filter fun k => strContains (pyLower text) k
  if found.isEmpty then (0, "Language appears normal")
  else (1, "Contains panic words: " ++ String.intercalate ", " found)

/-- Embeds `backup_url_scan` (src/app.py lines 53-64): five checks, each
appending its reason; when any fired the reasons are joined with ", ". -/
def backup_url_scan (url : String) : Int × String :=
  let reasons :=
    (if hasIPquad url then ["IP address masking"] else []) ++
    (if 3 < countChar url '.' then ["Too many subdomains"] else []) ++
    (if 3 < countChar url '-' then ["Too many dashes"] else []) ++
    (if 0 < countChar url '@' then ["Contains '@' symbol"] else []) ++
    (if 75 < url.length then ["URL is suspiciously long"] else [])
  if reasons.isEmpty then (0, "Clean URL structure")
  else (1, String.intercalate ", " reasons)

/-- The inline rule chain of the Active-mode link branch (src/app.py
lines 135-151): `manual_fail` starts false with the default AI reason and
the `elif` chain keeps only the FIRST matching rule's reason. There is no
length check in this chain. -/
def manualCheck (url : String) : Bool × String :=
  if hasIPquad url then (true, "IP Address Masking (Rule Violation)")
  else if 3 < countChar url '.' then (true, "Too many subdomains (Rule Violation)")
  else if 3 < countChar url '-' then (true, "Too many dashes / Typosquatting (Rule Violation)")
  else if 0 < countChar url '@' then (true, "Contains '@' symbol (Rule Violation)")
  else (false, "AI Pattern Match (Suspicious Structure)")

/-- The URL model artifact: `url_model.predict(feats)[0]`. -/
structure UrlModel where
  predict : List Int → Int

/-- The text model artifact: `predict(...)[0]` and `predict_proba(...)[0][1]`. -/
structure TextModel where
  predict : List ℚ → Int
  predictProba1 : List ℚ → ℚ

/-- The vectorizer artifact: `vectorizer.transform([text])`. -/
structure Vectorizer where
  transform : String → List ℚ

/-- Decision path of one scanned link. -/
inductive LinkStatus where
  | safe
  | bad
deriving DecidableEq, Repr

/-- One entry of `bad_links` / `safe_links`: the URL, which list it went
to, and the reason string shown to the user. -/
structure LinkFinding where
  url : String
  status : LinkStatus
  reason : String
deriving DecidableEq, Repr

/-- Embeds `load_brain` (src/app.py lines 67-77): the three artifacts are
loaded inside one `try`; if any load raises, the `except` returns
`(None, None, None)`, so the result is all-present or all-absent. -/
def load_brain (lu : Except Unit UrlModel) (ltm : Except Unit TextModel)
    (lv : Except Unit Vectorizer) :
    Option UrlModel × Option TextModel × Option Vectorizer :=
  match lu, ltm, lv with
  | Except.ok u, Except.ok t, Except.ok v => (some u, some t, some v)
  | _, _, _ => (none, none, none)

/-- Embeds the text branch (src/app.py lines 102-109). The second
component counts model-provider invocations (`transform`, `predict`,
`predict_proba`): 3 on the Active path, 0 on the Degraded path. The
result triple is (label, confidence, reason), with Python truthiness of
the label (`if is_phishing:`) modelled as `label ≠ 0`. -/
def classifyText (tm? : Option TextModel) (vec : Vectorizer) (text : String) :
    (Int × ℚ × String) × Nat :=
  match tm? with
  | some tm =>
    let f := vec.transform text
    let label := tm.predict f
    let conf := tm.predictProba1 f * 100
    ((label, conf,
      if label ≠ 0 then "Suspicious language patterns detected"
      else "Language appears normal"), 3)
  | none =>
    let r := backup_text_scan text
    ((r.1, if r.1 ≠ 0 then 95 else 5, r.2), 0)

/-- Embeds one iteration of the link loop (src/app.py lines 125-167):
whitelist short-circuit on the netloc, then either the Active branch
(inline rule chain, feature extraction, one `url_model.predict` call, OR
fusion keeping the chain's reason) or the Degraded branch
(`backup_url_scan`). The second component counts model invocations; it is
produced even when `urlparse` raises, so that the count is observable on
every input. -/
def classifyLink (m? : Option UrlModel) (url : String) :
    Except String LinkFinding × Nat :=
  match pyUrlsplit url with
  | Except.error e => (Except.error e, 0)
  | Except.ok sr =>
    if isTrusted sr.2 then
      (Except.ok ⟨url, LinkStatus.safe, "Trusted Domain"⟩, 0)
    else
      match m? with
      | some m =>
        let mc := manualCheck url
        match extract_features url with
        | Except.error e => (Except.error e, 0)
        | Except.ok feats =>
          let aiFail := m.predict feats == 1
          if mc.1 || aiFail then
            (Except.ok ⟨url, LinkStatus.bad, mc.2⟩, 1)
          else
            (Except.ok ⟨url, LinkStatus.safe, "AI Analysis Passed"⟩, 1)
      | none =>
        let r := backup_url_scan url
        if r.1 = 1 then (Except.ok ⟨url, LinkStatus.bad, r.2⟩, 0)
        else (Except.ok ⟨url, LinkStatus.safe, "Link Structure Clean"⟩, 0)

/-- Match of `https?://\S+` anchored at the head of `s`: the literal
prefix (greedy optional `s`), then a non-empty maximal run of non-space
characters. Returns the match and the remainder. -/
def matchUrlAt (s : List Char) : Option (List Char × List Char) :=
  let pre :=
    if ("https://".data).isPrefixOf s then some ("https://".data)
    else if ("http://".data).isPrefixOf s then some ("http://".data)
    else none
  match pre with
  | none => none
  | some p =>
    let rest := s.drop p.length
    let tok := rest.takeWhile fun c => !isPySpace c
    if tok.isEmpty then none
    else some (p ++ tok, rest.drop tok.length)

/-- Left-to-right non-overlapping scan of `re.findall`, fuelled by the
input length (each successful match consumes at least one character). -/
def findUrlsAux : Nat → List Char → List (List Char)
  | 0, _ => []
  | _, [] => []
  | fuel + 1, c :: t =>
    match matchUrlAt (c :: t) with
    | some m => m.1 :: findUrlsAux fuel m.2
    | none => findUrlsAux fuel t

/-- Embeds `re.findall(r'(https?://\S+)', email_text)` (src/app.py
line 121). -/
def findUrls (s : String) : List String :=
  (findUrlsAux s.data.length s.data).map fun l => ⟨l⟩

/-- The link loop (src/app.py lines 122-167) over a list of URLs,
accumulating `bad_links` and `safe_links` in order and summing model
invocations; an exception anywhere aborts the loop as in Python. -/
def scanLinks (m? : Option UrlModel) : List String →
    Except String (List (String × String) × List (String × String)) × Nat
  | [] => (Except.ok ([], []), 0)
  | url :: rest =>
    let r := classifyLink m? url
    match r.1 with
    | Except.error e => (Except.error e, r.2)
    | Except.ok f =>
      let r' := scanLinks m? rest
      match r'.1 with
      | Except.error e => (Except.error e, r.2 + r'.2)
      | Except.ok bs =>
        match f.status with
        | LinkStatus.bad => (Except.ok ((f.url, f.reason) :: bs.1, bs.2), r.2 + r'.2)
        | LinkStatus.safe => (Except.ok (bs.1, (f.url, f.reason) :: bs.2), r.2 + r'.2)

/-- Outcome of one press of the Analyze button. -/
inductive Report where
  | invalid (msg : String)
  | analysis (textRes : Int × ℚ × String)
      (badLinks safeLinks : List (String × String))
deriving DecidableEq

/-- Embeds the Analyze handler (src/app.py lines 91-167): validation gate
first; on failure only the warning is shown, otherwise the text branch
runs and then the link loop. The second component is the total number of
model-provider invocations. -/
def analyzeEmail (um? : Option UrlModel) (tm? : Option TextModel)
    (vec : Vectorizer) (text : String) : Except String Report × Nat :=
  match is_valid_email_text text with
  | Except.error e => (Except.error e, 0)
  | Except.ok vr =>
    if vr.1 = false then (Except.ok (Report.invalid vr.2), 0)
    else
      let tr := classifyText tm? vec text
      let lr := scanLinks um? (findUrls text)
      match lr.1 with
      | Except.error e => (Except.error e, tr.2 + lr.2)
      | Except.ok bs => (Except.ok (Report.analysis tr.1 bs.1 bs.2), tr.2 + lr.2)

/-! ## Helper lemmas shared by several claims -/

theorem dropWhile_length_le {α : Type} (p : α → Bool) :
    ∀ l : List α, (l.dropWhile p).length ≤ l.length
  | [] => Nat.le_refl _
  | a :: l => by
    rw [List.dropWhile_cons]
    cases h : p a
    · simp
    · simpa using Nat.le_succ_of_le (dropWhile_length_le p l)

theorem pyStrip_length_le (s : String) : (pyStrip s).length ≤ s.length := by
  show (((s.data.dropWhile isPySpace).reverse.dropWhile isPySpace).reverse).length
      ≤ s.data.length
  rw [List.length_reverse]
  calc ((s.data.dropWhile isPySpace).reverse.dropWhile isPySpace).length
      ≤ (s.data.dropWhile isPySpace).reverse.length := dropWhile_length_le _ _
    _ = (s.data.dropWhile isPySpace).length := List.length_reverse _
    _ ≤ s.data.length := dropWhile_length_le _ _

theorem classifyLink_trusted (m? : Option UrlModel) (url : String)
    (sr : String × String) (hs : pyUrlsplit url = Except.ok sr)
    (ht : isTrusted sr.2 = true) :
    classifyLink m? url =
      (Except.ok ⟨url, LinkStatus.safe, "Trusted Domain"⟩, 0) := by
  unfold classifyLink
  rw [hs]
  simp [ht]

theorem classifyLink_none_calls (url : String) :
    (classifyLink none url).2 = 0 := by
  unfold classifyLink
  rcases hs : pyUrlsplit url with e | sr
  · rfl
  · by_cases ht : isTrusted sr.2
    · simp [ht]
    · simp only [ht, Bool.false_eq_true, if_false]
      split <;> rfl

theorem scanLinks_none_calls (urls : List String) :
    (scanLinks none urls).2 = 0 := by
  induction urls with
  | nil => rfl
  | cons u rest ih =>
    unfold scanLinks
    have h := classifyLink_none_calls u
    rcases hc : (classifyLink none u).1 with e | f
    · simp [hc, h]
    · rcases hr : (scanLinks none rest).1 with e | bs
      · simp [hc, hr, h, ih]
      · cases hst : f.status <;> simp [hc, hr, hst, h, ih]

/-! ## Claim theorems -/

/-- C1: the claim says the input validator is total and in particular
terminates normally on every text of 20 or more characters. The code
violates this: line 37 of src/app.py reads `words` before its assignment
on line 39, so every input whose stripped text has length at least 20
raises `UnboundLocalError` instead of returning a result. -/
theorem c1_validator_raises_on_long_input (text : String)
    (h : 20 ≤ (pyStrip text).length) :
    is_valid_email_text text =
      Except.error
        "UnboundLocalError: local variable words referenced before assignment" := by
  have h0 : ¬ (pyStrip text).length = 0 := by omega
  have h1 : ¬ (pyStrip text).length < 20 := by omega
  simp only [is_valid_email_text, h0, h1, if_false]

theorem c1_validator_raises_on_long_input_witness :
    20 ≤ (pyStrip "Dear customer, please verify your account now.").length ∧
    is_valid_email_text "Dear customer, please verify your account now." =
      Except.error
        "UnboundLocalError: local variable words referenced before assignment" :=
  ⟨by decide, c1_validator_raises_on_long_input _ (by decide)⟩

/-- C2: a URL whose netloc contains a trusted domain as a substring is
classified as a safe link with reason "Trusted Domain" and zero model
invocations, irrespective of the engine mode (`m?` covers Active and
Degraded) and of what the rules or the model would say. -/
theorem c2_allowlist_precedence (m? : Option UrlModel) (url : String)
    (sr : String × String) (hs : pyUrlsplit url = Except.ok sr)
    (ht : isTrusted sr.2 = true) :
    classifyLink m? url =
      (Except.ok ⟨url, LinkStatus.safe, "Trusted Domain"⟩, 0) :=
  classifyLink_trusted m? url sr hs ht

theorem c2_allowlist_precedence_witness :
    pyUrlsplit "https://drive.google.com/file" =
      Except.ok ("https", "drive.google.com") ∧
    isTrusted "drive.google.com" = true ∧
    classifyLink (some ⟨fun _ => 1⟩) "https://drive.google.com/file" =
      (Except.ok ⟨"https://drive.google.com/file", LinkStatus.safe,
        "Trusted Domain"⟩, 0) :=
  ⟨rfl, rfl,
   c2_allowlist_precedence (some ⟨fun _ => 1⟩) _ ("https", "drive.google.com")
     rfl rfl⟩

/-- C6 counterexample: `backup_url_scan` has no digit-count check, so the
URL "http://a123456.co", which has six digit characters and triggers none
of the implemented checks, comes back clean — refuting the claim that a
URL with more than 5 digits is flagged with reason "high digit count". -/
theorem c6_counterexample :
    5 < digitCount "http://a123456.co" ∧
    backup_url_scan "http://a123456.co" = (0, "Clean URL structure") :=
  ⟨by decide, rfl⟩

/-- C6 amended: `backup_url_scan` implements no digit-count rule; a URL
with more than 5 digit characters that triggers none of the five
implemented checks (dotted-quad IP, more than 3 dots, more than 3 dashes,
an at sign, length over 75) is reported clean. -/
theorem c6_no_digit_check_amended (url : String)
    (_hd : 5 < digitCount url)
    (h1 : hasIPquad url = false) (h2 : countChar url '.' ≤ 3)
    (h3 : countChar url '-' ≤ 3) (h4 : countChar url '@' = 0)
    (h5 : url.length ≤ 75) :
    backup_url_scan url = (0, "Clean URL structure") := by
  have n2 : ¬ 3 < countChar url '.' := by omega
  have n3 : ¬ 3 < countChar url '-' := by omega
  have n4 : ¬ 0 < countChar url '@' := by omega
  have n5 : ¬ 75 < url.length := by omega
  simp [backup_url_scan, h1, n2, n3, n4, n5]

theorem c6_no_digit_check_amended_witness :
    5 < digitCount "http://tx99201.example8.com/id42" ∧
    backup_url_scan "http://tx99201.example8.com/id42" =
      (0, "Clean URL structure") :=
  ⟨by decide, c6_no_digit_check_amended _ (by decide) (by decide) (by decide)
    (by decide) (by decide) (by decide)⟩

/-- C7 counterexample: `extract_features` is not total — `urlparse`
raises ValueError("Invalid IPv6 URL") on a netloc containing an unmatched
square bracket, and `extract_features` propagates it instead of degrading
to default feature values. -/
theorem c7_counterexample :
    extract_features "http://[a" = Except.error "Invalid IPv6 URL" := rfl

/-- C7 amended: on every input on which `urlparse` does not raise,
`extract_features` returns a 7-element numeric feature vector; totality
over arbitrary strings fails only through the `urlparse` ValueError on a
bracket-mismatched netloc. -/
theorem c7_extract_length_amended (url : String) (v : List Int)
    (h : extract_features url = Except.ok v) : v.length = 7 := by
  unfold extract_features at h
  rcases hs : pyUrlsplit url with e | sr <;> rw [hs] at h
  · cases h
  · injection h with h
    subst h
    rfl

theorem c7_extract_length_amended_witness :
    extract_features "https://x.com" = Except.ok [13, 1, 0, 0, 0, 1, 0] ∧
    ([13, 1, 0, 0, 0, 1, 0] : List Int).length = 7 :=
  ⟨rfl, c7_extract_length_amended "https://x.com" _ rfl⟩

/-- C10: the substring allowlist test on the netloc is bypassable — a
trusted name in the userinfo part ("http://paypal.com@evil.com") or as a
prefix of a longer attacker host ("http://paypal.com.evil.net") makes the
link safe with reason "Trusted Domain" and zero model calls in every
mode, even though both the backup rules and the Active-mode inline chain
would flag the '@' URL. -/
theorem c10_netloc_substring_bypass (m? : Option UrlModel) :
    classifyLink m? "http://paypal.com@evil.com" =
      (Except.ok ⟨"http://paypal.com@evil.com", LinkStatus.safe,
        "Trusted Domain"⟩, 0) ∧
    classifyLink m? "http://paypal.com.evil.net" =
      (Except.ok ⟨"http://paypal.com.evil.net", LinkStatus.safe,
        "Trusted Domain"⟩, 0) ∧
    backup_url_scan "http://paypal.com@evil.com" =
      (1, "Contains '@' symbol") ∧
    manualCheck "http://paypal.com@evil.com" =
      (true, "Contains '@' symbol (Rule Violation)") :=
  ⟨classifyLink_trusted m? _ ("http", "paypal.com@evil.com") rfl rfl,
   classifyLink_trusted m? _ ("http", "paypal.com.evil.net") rfl rfl,
   rfl, rfl⟩

theorem c10_netloc_substring_bypass_witness :
    classifyLink none "http://paypal.com@evil.com" =
      (Except.ok ⟨"http://paypal.com@evil.com", LinkStatus.safe,
        "Trusted Domain"⟩, 0) :=
  (c10_netloc_substring_bypass none).1

/-- C3 counterexample: in Active mode, when neither the inline rule chain
nor the model flags a URL, the code labels it safe with reason
"AI Analysis Passed" (src/app.py line 161), not the claimed
"clean — passed rule and model checks". -/
theorem c3_counterexample :
    classifyLink (some ⟨fun _ => 0⟩) "http://x.co" =
      (Except.ok ⟨"http://x.co", LinkStatus.safe, "AI Analysis Passed"⟩, 1) ∧
    "AI Analysis Passed" ≠ "clean — passed rule and model checks" :=
  ⟨rfl, by decide⟩

/-- C3 amended: in Active mode, for every non-allowlisted URL on which
`urlparse` succeeds, the link is flagged exactly when the inline rule
chain fires OR the model predicts label 1; when flagged, the rule chain's
reason (its default "AI Pattern Match (Suspicious Structure)" when only
the model fired) is surfaced; when neither fires the link is safe with
reason "AI Analysis Passed" (not "clean — passed rule and model
checks"). -/
theorem c3_active_fusion_amended (m : UrlModel) (url : String)
    (sr : String × String) (hs : pyUrlsplit url = Except.ok sr)
    (ht : isTrusted sr.2 = false) :
    classifyLink (some m) url =
      (Except.ok ⟨url,
        if (manualCheck url).1 || (m.predict (featureList url sr.1) == 1)
          then LinkStatus.bad else LinkStatus.safe,
        if (manualCheck url).1 || (m.predict (featureList url sr.1) == 1)
          then (manualCheck url).2 else "AI Analysis Passed"⟩, 1) := by
  unfold classifyLink extract_features
  rw [hs]
  simp only [ht, Bool.false_eq_true, if_false]
  split <;> simp_all

theorem c3_active_fusion_amended_witness :
    pyUrlsplit "http://1.2.3.4@evil.com" =
      Except.ok ("http", "1.2.3.4@evil.com") ∧
    isTrusted "1.2.3.4@evil.com" = false ∧
    classifyLink (some ⟨fun _ => 1⟩) "http://1.2.3.4@evil.com" =
      (Except.ok ⟨"http://1.2.3.4@evil.com",
        if (manualCheck "http://1.2.3.4@evil.com").1 ||
            ((1 : Int) == 1) then LinkStatus.bad else LinkStatus.safe,
        if (manualCheck "http://1.2.3.4@evil.com").1 ||
            ((1 : Int) == 1) then (manualCheck "http://1.2.3.4@evil.com").2
        else "AI Analysis Passed"⟩, 1) :=
  ⟨rfl, rfl,
   c3_active_fusion_amended ⟨fun _ => 1⟩ _ ("http", "1.2.3.4@evil.com") rfl rfl⟩

/-- C4 counterexample: the Active-mode inline rule chain is not
extensionally equal to `backup_url_scan`. A 77-character URL with no
other trigger is flagged by `backup_url_scan` (length check) but not by
the inline chain, which has no length check; and on
"http://1.2.3.4@evil.com", `backup_url_scan` joins the three contributing
reasons while the inline chain stops at the first match. -/
theorem c4_counterexample :
    (backup_url_scan ("http://" ++ ⟨List.replicate 70 'a'⟩)).1 = 1 ∧
    (manualCheck ("http://" ++ ⟨List.replicate 70 'a'⟩)).1 = false ∧
    backup_url_scan "http://1.2.3.4@evil.com" =
      (1, "IP address masking, Too many subdomains, Contains '@' symbol") ∧
    manualCheck "http://1.2.3.4@evil.com" =
      (true, "IP Address Masking (Rule Violation)") :=
  ⟨rfl, rfl, rfl, rfl⟩

/-- C4 amended: the inline chain and `backup_url_scan` agree on the four
shared checks, but `backup_url_scan` additionally fires on length over 75
— so inline suspicion implies backup suspicion and the backup bit equals
the inline bit OR the length condition; the reason strings differ (the
inline chain keeps only its first match, `backup_url_scan` joins all). -/
theorem c4_rules_relation_amended (url : String) :
    ((manualCheck url).1 = true → (backup_url_scan url).1 = 1) ∧
    ((backup_url_scan url).1 = 1 ↔
      ((manualCheck url).1 = true ∨ 75 < url.length)) := by
  by_cases hip : hasIPquad url <;>
  by_cases hdot : 3 < countChar url '.' <;>
  by_cases hdash : 3 < countChar url '-' <;>
  by_cases hat : 0 < countChar url '@' <;>
  by_cases hlen : 75 < url.length <;>
  simp [backup_url_scan, manualCheck, hip, hdot, hdash, hat, hlen]

theorem c4_rules_relation_amended_witness :
    (backup_url_scan "http://x.co").1 = 1 ↔
      ((manualCheck "http://x.co").1 = true ∨ 75 < "http://x.co".length) :=
  (c4_rules_relation_amended "http://x.co").2

/-- C5: with no model loaded (Degraded mode), the text branch, the link
branch and the whole Analyze handler perform zero model-provider
invocations (`transform`, `predict`, `predict_proba`), for every input
text, URL and vectorizer. -/
theorem c5_degraded_no_model_calls (vec : Vectorizer) (text url : String) :
    (classifyText none vec text).2 = 0 ∧
    (classifyLink none url).2 = 0 ∧
    (analyzeEmail none none vec text).2 = 0 := by
  refine ⟨rfl, classifyLink_none_calls url, ?_⟩
  unfold analyzeEmail
  rcases hv : is_valid_email_text text with e | vr
  · rfl
  · by_cases h1 : vr.1 = false
    · simp [h1]
    · rcases hl : (scanLinks none (findUrls text)).1 with e | bs <;>
        simp [h1, hl, scanLinks_none_calls, classifyText]

theorem c5_degraded_no_model_calls_witness :
    (classifyText none ⟨fun _ => []⟩ "URGENT: verify your account").2 = 0 ∧
    (classifyLink none "http://192.168.1.5/login-now").2 = 0 ∧
    (analyzeEmail none none ⟨fun _ => []⟩ "URGENT: verify your account").2 = 0 :=
  c5_degraded_no_model_calls ⟨fun _ => []⟩ "URGENT: verify your account"
    "http://192.168.1.5/login-now"

/-- C8 counterexample: the empty text is shorter than 20 characters, yet
the validator rejects it with the distinct "Empty input" reason, not the
"too short" reason the claim names. -/
theorem c8_counterexample :
    "".length < 20 ∧
    is_valid_email_text "" =
      Except.ok (false, "Empty input, Paste something to analyze.") ∧
    "Empty input, Paste something to analyze." ≠
      "Input is too short to be a valid email." :=
  ⟨by decide, rfl, by decide⟩

/-- C8 amended: every text shorter than 20 characters is rejected before
any analysis — with the "too short" reason when the stripped text is
non-empty and the "empty input" reason when it is whitespace-only — and
the Analyze handler produces the invalid report with zero model
invocations. -/
theorem c8_short_input_amended (um? : Option UrlModel) (tm? : Option TextModel)
    (vec : Vectorizer) (text : String) (h : text.length < 20) :
    is_valid_email_text text =
      Except.ok (false,
        if (pyStrip text).length = 0 then
          "Empty input, Paste something to analyze."
        else "Input is too short to be a valid email.") ∧
    analyzeEmail um? tm? vec text =
      (Except.ok (Report.invalid
        (if (pyStrip text).length = 0 then
          "Empty input, Paste something to analyze."
        else "Input is too short to be a valid email.")), 0) := by
  have hs : (pyStrip text).length < 20 :=
    Nat.lt_of_le_of_lt (pyStrip_length_le text) h
  have hv : is_valid_email_text text =
      Except.ok (false,
        if (pyStrip text).length = 0 then
          "Empty input, Paste something to analyze."
        else "Input is too short to be a valid email.") := by
    by_cases h0 : (pyStrip text).length = 0 <;> simp [is_valid_email_text, h0, hs]
  refine ⟨hv, ?_⟩
  unfold analyzeEmail
  rw [hv]
  rfl

theorem c8_short_input_amended_witness :
    "hi there".length < 20 ∧
    is_valid_email_text "hi there" =
      Except.ok (false,
        if (pyStrip "hi there").length = 0 then
          "Empty input, Paste something to analyze."
        else "Input is too short to be a valid email.") ∧
    analyzeEmail none none ⟨fun _ => []⟩ "hi there" =
      (Except.ok (Report.invalid
        (if (pyStrip "hi there").length = 0 then
          "Empty input, Paste something to analyze."
        else "Input is too short to be a valid email.")), 0) :=
  ⟨by decide,
   (c8_short_input_amended none none ⟨fun _ => []⟩ "hi there" (by decide)).1,
   (c8_short_input_amended none none ⟨fun _ => []⟩ "hi there" (by decide)).2⟩

/-- C9: `load_brain` yields either all three artifacts or none of them
(any load failure lands in the `except` branch returning three Nones), so
the text-branch mode test (`if text_model:`) and the link-branch mode
test (`if url_model:`) always agree for the rest of the run. -/
theorem c9_load_brain_all_or_none (lu : Except Unit UrlModel)
    (ltm : Except Unit TextModel) (lv : Except Unit Vectorizer) :
    (((load_brain lu ltm lv).1 = none ∧ (load_brain lu ltm lv).2.1 = none ∧
        (load_brain lu ltm lv).2.2 = none) ∨
      ((load_brain lu ltm lv).1.isSome = true ∧
        (load_brain lu ltm lv).2.1.isSome = true ∧
        (load_brain lu ltm lv).2.2.isSome = true)) ∧
    (load_brain lu ltm lv).2.1.isSome = (load_brain lu ltm lv).1.isSome := by
  cases lu <;> cases ltm <;> cases lv <;> simp [load_brain]

theorem c9_load_brain_all_or_none_witness :
    (((load_brain (Except.ok ⟨fun _ => 0⟩) (Except.error ())
          (Except.ok ⟨fun _ => []⟩)).1 = none ∧
        (load_brain (Except.ok ⟨fun _ => 0⟩) (Except.error ())
          (Except.ok ⟨fun _ => []⟩)).2.1 = none ∧
        (load_brain (Except.ok ⟨fun _ => 0⟩) (Except.error ())
          (Except.ok ⟨fun _ => []⟩)).2.2 = none) ∨
      ((load_brain (Except.ok ⟨fun _ => 0⟩) (Except.error ())
          (Except.ok ⟨fun _ => []⟩)).1.isSome = true ∧
        (load_brain (Except.ok ⟨fun _ => 0⟩) (Except.error ())
          (Except.ok ⟨fun _ => []⟩)).2.1.isSome = true ∧
        (load_brain (Except.ok ⟨fun _ => 0⟩) (Except.error ())
          (Except.ok ⟨fun _ => []⟩)).2.2.isSome = true)) ∧
    (load_brain (Except.ok ⟨fun _ => 0⟩) (Except.error ())
        (Except.ok ⟨fun _ => []⟩)).2.1.isSome =
      (load_brain (Except.ok ⟨fun _ => 0⟩) (Except.error ())
        (Except.ok ⟨fun _ => []⟩)).1.isSome :=
  c9_load_brain_all_or_none (Except.ok ⟨fun _ => 0⟩) (Except.error ())
    (Except.ok ⟨fun _ => []⟩)
